import Mathlib

/-!
Verification of the Petkit W5 BLE integration's codec, device-state update,
notification dispatch, sequence counter and connection supervisor, as a
shallow embedding of the Python sources (`PetkitW5BLEMQTT/utils.py`,
`parsers.py`, `device.py`, `event_handlers.py`,
`custom_components/petkit_ble/PetkitW5BLEMQTT/commands.py`,
`custom_components/petkit_ble/ha_bluetooth_adapter.py`).

Bytes are modelled as `Nat` (a Python `bytearray` element is in `0..255`;
theorems carry that bound as a hypothesis where it matters), Python `int`
as `Int`/`Nat`, Python `float` as `Rat`, fallible code (index errors,
`KeyError`, `ZeroDivisionError`) as `Option`.
-/

/-! ## Codec: `utils.py` byte helpers -/

/-- `Utils.byte_to_integer`: `byte & 0xFF`. -/
def byte_to_integer (b : Nat) : Nat := b &&& 255

/-- Big-endian unsigned `int.from_bytes`. -/
def int_from_bytes (bs : List Nat) : Nat :=
  bs.foldl (fun acc b => acc * 256 + b) 0

/-- `Utils.bytes_to_integer`: big-endian unsigned. -/
def bytes_to_integer (bs : List Nat) : Nat := int_from_bytes bs

/-- `Utils.bytes_to_long`: big-endian unsigned. -/
def bytes_to_long (bs : List Nat) : Nat := int_from_bytes bs

/-- `Utils.bytes_to_short`: `int.from_bytes(bytes, 'big', signed=True)` —
big-endian two's-complement over the slice's actual length. -/
def bytes_to_short (bs : List Nat) : Int :=
  let u := int_from_bytes bs
  if u < 2 ^ (8 * bs.length - 1) then (u : Int) else (u : Int) - 2 ^ (8 * bs.length)

/-- Specification-side view of a 2-byte big-endian signed short. -/
def toSigned16 (n : Nat) : Int :=
  if n < 32768 then (n : Int) else (n : Int) - 65536

/-! ## Codec: frame build / parse (`utils.py`) -/

/-- `Utils.build_command`: `header + [cmd, type, seq, len(data), 0] + data + [end]`,
materialised through `bytearray(...)`, which rejects any element outside `0..255`
(modelled as `none`). -/
def build_command (seq cmd ty : Nat) (data : List Nat) : Option (List Nat) :=
  let header := [250, 252, 253]
  let end_byte := [251]
  let length := data.length
  let start_data := 0
  let command := header ++ [cmd, ty, seq, length, start_data] ++ data ++ end_byte
  if command.all (fun b => b < 256) then some command else none

/-- The record returned by `Utils.parse_bytearray`. -/
structure Frame where
  header : List Nat
  cmd : Nat
  type : Nat
  seq : Nat
  data_length : Nat
  data_start : Nat
  data : List Nat
  end_byte : Nat
deriving DecidableEq, Repr

/-- `Utils.parse_bytearray`: pure slicing/indexing, no validation.  Indexing
`byte_array[3] .. byte_array[7]` raises `IndexError` when the input has fewer
than 8 bytes (modelled as `none`); `byte_array[8:-1]` and `byte_array[-1]`
are the slices/index used for `data` and `end_byte`. -/
def parse_bytearray (byte_array : List Nat) : Option Frame :=
  if byte_array.length < 8 then none
  else some
    { header := byte_array.take 3
      cmd := byte_array.getD 3 0
      type := byte_array.getD 4 0
      seq := byte_array.getD 5 0
      data_length := byte_array.getD 6 0
      data_start := byte_array.getD 7 0
      data := (byte_array.drop 8).dropLast
      end_byte := byte_array.getD (byte_array.length - 1) 0 }

/-! ## Codec: time formatting and derived values (`utils.py`) -/

/-- Python `f"{n:02d}"`: minimum width 2, zero padding inserted between the
sign and the digits. -/
def format02d (n : Int) : String :=
  let sign := if n < 0 then "-" else ""
  let digits := toString n.natAbs
  sign ++ String.mk (List.replicate (2 - (sign.length + digits.length)) '0') ++ digits

/-- `Utils.minutes_to_timestamp`: `hours = minutes // 60` (floor division),
`minutes = minutes % 60` (Python modulo, sign of the divisor), rendered as
`f"{hours:02d}:{minutes:02d}"`. -/
def minutes_to_timestamp (minutes : Int) : String :=
  let hours := minutes.fdiv 60
  let m := minutes.fmod 60
  format02d hours ++ ":" ++ format02d m

/-- `Utils.calculate_energy_usage`: `0.182 / 3_600_000` for alias `"W5C"`,
`0.75 * pump_runtime_today / 3_600_000` otherwise.  (The source's dead
initialisers `f2 = 2.0`, `f3 = 1.5` are overwritten before use.) -/
def calculate_energy_usage (aliasName : String) (pump_runtime_today : ℚ) : ℚ :=
  let f : ℚ := if aliasName = "W5C" then 0.182 else 0.75 * pump_runtime_today
  let f2 : ℚ := 3600000
  f / f2

/-- `Utils.calculate_water_purified`: `f3 * runtime / 60 / f2` with
`(f3, f2) = (1.3, 1.0)` for `"W5C"`, `(1.5, 1.8)` for `"W4X"`, `(1.5, 2.0)`
otherwise. -/
def calculate_water_purified (aliasName : String) (pump_runtime_today : ℚ) : ℚ :=
  let f2 : ℚ := if aliasName = "W5C" then 1.0 else if aliasName = "W4X" then 1.8 else 2.0
  let f3 : ℚ := if aliasName = "W5C" then 1.3 else 1.5
  let f : ℚ := (f3 * pump_runtime_today) / 60.0
  f / f2

/-- `Utils.calculate_remaining_filter_time`:
`math.ceil(((filter_percentage * 30.0) * (time_on + time_off)) / time_on)`;
`time_on == 0` raises `ZeroDivisionError` (modelled as `none`). -/
def calculate_remaining_filter_time (filter_percentage time_on time_off : ℚ) : Option Int :=
  if time_on = 0 then none
  else some ⌈(filter_percentage * 30.0) * (time_on + time_off) / time_on⌉

/-- Python `format(x, 'f')`: fixed-point with six fractional digits (rounding
of the seventh digit modelled as round-half-up). -/
def format_fixed (q : ℚ) : String :=
  let sign := if q < 0 then "-" else ""
  let scaled : Int := ⌊|q| * 1000000 + 1/2⌋
  let ip := scaled / 1000000
  let fp := scaled % 1000000
  sign ++ toString ip ++ "." ++
    String.mk (List.replicate (6 - (toString fp).length) '0') ++ toString fp

/-- `Utils.calculate_values`: chooses `(time_on, time_off) = (1, 0)` when
`mode == 1`, `(smart_time_on, smart_time_off)` otherwise, and returns
`(filter_time_left, water_purified, water_purified_today, energy_consumed)`. -/
def calculate_values (mode : Nat) (filter_percentage smart_time_on smart_time_off : ℚ)
    (aliasName : String) (pump_runtime_today pump_runtime : ℚ) :
    Option (Int × ℚ × ℚ × String) :=
  let time_on := if mode = 1 then (1 : ℚ) else smart_time_on
  let time_off := if mode = 1 then (0 : ℚ) else smart_time_off
  match calculate_remaining_filter_time filter_percentage time_on time_off with
  | none => none
  | some filter_time_left =>
    let water_purified_today := calculate_water_purified aliasName pump_runtime_today
    let water_purified := calculate_water_purified aliasName pump_runtime
    let energy_consumed := format_fixed (calculate_energy_usage aliasName pump_runtime)
    some (filter_time_left, water_purified, water_purified_today, energy_consumed)

/-! ## Command sequencer (`commands.py`) -/

/-- `Commands.increment_sequence`: `sequence += 1; if sequence > 255: sequence = 0`. -/
def increment_sequence (sequence : Nat) : Nat :=
  let s := sequence + 1
  if s > 255 then 0 else s

/-- `Commands.get_battery`: builds `build_command(seq=sequence, cmd=66, type=1,
data=[0, 0])`, queues it, then increments the counter.  Returns the queued
frame and the updated counter. -/
def get_battery (sequence : Nat) : Option (List Nat) × Nat :=
  (build_command sequence 66 1 [0, 0], increment_sequence sequence)

/-! ## Device attribute dictionary (`device.py`) -/

/-- A Python attribute value as used by this library: int, float, string, or
list of byte values. -/
inductive Val where
  | int : Int → Val
  | rat : ℚ → Val
  | str : String → Val
  | nats : List Nat → Val
deriving DecidableEq, Repr

/-- A Python instance's attribute dictionary (`self.__dict__`), in insertion
order. -/
abbrev PyDict := List (String × Val)

/-- Python `setattr` on an instance: overwrite the attribute in place, append
when absent. -/
def setAttr : PyDict → String → Val → PyDict
  | [], k, v => [(k, v)]
  | (k₀, v₀) :: rest, k, v =>
      if k₀ = k then (k, v) :: rest else (k₀, v₀) :: setAttr rest k v

/-- Python `hasattr` restricted to instance attributes (the setters only probe
underscore-prefixed names, which never collide with class-level members). -/
def hasAttr (d : PyDict) (k : String) : Bool := (d.lookup k).isSome

/-- Python `address.replace(":", "")`: for a single-character pattern and an
empty replacement this deletes every occurrence of the character. -/
def remove_colons (s : String) : String :=
  String.mk (s.data.filter (fun c => c != ':'))

/-- `Device.__init__(address)`: the instance attributes in assignment order. -/
def device_init (address : String) : PyDict :=
  [("device_initialized", .int 0),
   ("device_id", .int 0),
   ("device_id_bytes", .nats []),
   ("serial", .str "Uninitialized"),
   ("secret", .nats [0, 0, 0, 0, 0, 0, 13, 37]),
   ("mac", .str address),
   ("mac_readable", .str (remove_colons address)),
   ("name", .str "Uninitialized"),
   ("name_readable", .str "Uninitialized"),
   ("product_name", .str "Uninitialized"),
   ("alias", .str "Uninitialized"),
   ("firmware", .int 0),
   ("device_type", .int 0),
   ("type_code", .int 0),
   ("rssi", .int 0),
   ("_mac_readable", .str (remove_colons address)),
   ("_name_readable", .str "Uninitialized"),
   ("_voltage", .rat 0),
   ("_battery", .int 0),
   ("_energy_consumed", .int 0),
   ("_filter_time_left", .int 0),
   ("_rssi", .int 0),
   ("_power_status", .int 0),
   ("_mode", .int 0),
   ("_dnd_state", .int 0),
   ("_warning_breakdown", .int 0),
   ("_warning_water_missing", .int 0),
   ("_warning_filter", .int 0),
   ("_pump_runtime", .int 0),
   ("_pump_runtime_today", .int 0),
   ("_pump_runtime_readable", .int 0),
   ("_pump_runtime_today_readable", .int 0),
   ("_purified_water", .int 0),
   ("_purified_water_today", .int 0),
   ("_filter_percentage", .int 0),
   ("_running_status", .int 0),
   ("_smart_time_on", .int 0),
   ("_smart_time_off", .int 0),
   ("_led_switch", .int 0),
   ("_led_brightness", .int 0),
   ("_led_light_time_on", .int 0),
   ("_led_light_time_on_readable", .str "Uninitialized"),
   ("_led_light_time_off", .int 0),
   ("_led_light_time_off_readable", .str "Uninitialized"),
   ("_do_not_disturb_switch", .int 0),
   ("_do_not_disturb_time_on", .int 0),
   ("_do_not_disturb_time_on_readable", .str "Uninitialized"),
   ("_do_not_disturb_time_off", .int 0),
   ("_do_not_disturb_time_off_readable", .str "Uninitialized"),
   ("_is_locked", .int 0),
   ("_led_on_byte1", .int 0),
   ("_led_on_byte2", .int 0),
   ("_led_off_byte1", .int 0),
   ("_led_off_byte2", .int 0),
   ("_dnd_on_byte1", .int 0),
   ("_dnd_on_byte2", .int 0),
   ("_dnd_off_byte1", .int 0),
   ("_dnd_off_byte2", .int 0)]

/-- The shared loop of the `Device.status` / `Device.config` / `Device.info`
setters: iterate over the update mapping in order; set
`self.{pre}{key} = value` when the attribute exists, otherwise raise
`KeyError(msg + key)` (modelled as `some errorMessage`), leaving the
already-applied entries in place. -/
def set_fields (pre msg : String) : PyDict → List (String × Val) → PyDict × Option String
  | d, [] => (d, none)
  | d, (key, value) :: rest =>
      if hasAttr d (pre ++ key) then set_fields pre msg (setAttr d (pre ++ key) value) rest
      else (d, some (msg ++ key))

/-- `Device.status` setter (`@status.setter`). -/
def status_setter (d : PyDict) (status_dict : List (String × Val)) : PyDict × Option String :=
  set_fields "_" "Invalid device.status key: " d status_dict

/-- `Device.config` setter (`@config.setter`). -/
def config_setter (d : PyDict) (config_dict : List (String × Val)) : PyDict × Option String :=
  set_fields "_" "Invalid device.config key: " d config_dict

/-- `Device.info` setter (`@info.setter`): attribute name is the key itself. -/
def info_setter (d : PyDict) (info_dict : List (String × Val)) : PyDict × Option String :=
  set_fields "" "Invalid device.info key: " d info_dict

/-! ## Payload parsers (`parsers.py`) -/

/-- Python slice `l[a:b]` for `0 ≤ a ≤ b` (never raises). -/
def pySlice (l : List Nat) (a b : Nat) : List Nat := (l.drop a).take (b - a)

/-- Python `float(f"{a}.{b}")` for nonnegative integers, e.g.
`float("2.13") = 2 + 13/100`. -/
def float_of_parts (a b : Nat) : ℚ :=
  a + (b : ℚ) / (10 ^ (toString b).length)

/-- `Parsers.device_battery` (cmd 66): voltage from the first two bytes,
battery from the third; `data[2]` raises on shorter payloads. -/
def device_battery (data : List Nat) (aliasName : String) : Option PyDict :=
  if data.length < 3 then none
  else some
    [("voltage", .rat (((data.getD 0 0 * 16 * 16 + (data.getD 1 0 &&& 255) : Nat) : ℚ) / 1000)),
     ("battery", .int (data.getD 2 0))]

/-- `Parsers.device_synchronization` (cmd 86). -/
def device_synchronization (data : List Nat) (aliasName : String) : Option PyDict :=
  if data.length < 1 then none
  else some [("device_initialized", .int (data.getD 0 0))]

/-- `Parsers.device_firmware` (cmd 200): `float(f"{data[0]}.{data[1]}")`. -/
def device_firmware (data : List Nat) (aliasName : String) : Option PyDict :=
  if data.length < 2 then none
  else some [("firmware", .rat (float_of_parts (data.getD 0 0) (data.getD 1 0)))]

/-- `Parsers.device_state` (cmd 210). -/
def device_state (data : List Nat) (aliasName : String) : Option PyDict :=
  if data.length < 12 then none
  else some
    [("power_status", .int (data.getD 0 0)),
     ("mode", .int (data.getD 1 0)),
     ("dnd_state", .int (data.getD 2 0)),
     ("warning_breakdown", .int (data.getD 3 0)),
     ("warning_water_missing", .int (data.getD 4 0)),
     ("warning_filter", .int (data.getD 5 0)),
     ("pump_runtime", .int (bytes_to_integer (pySlice data 6 10))),
     ("filter_percentage", .rat ((byte_to_integer (data.getD 10 0) : ℚ) / 100)),
     ("running_status", .int (byte_to_integer (data.getD 11 0)))]

/-- `Parsers.device_configuration` (cmd 211): 14-byte payload; the two-byte
schedule fields are decoded with `bytes_to_short` (big-endian signed). -/
def device_configuration (data : List Nat) (aliasName : String) : Option PyDict :=
  if data.length < 14 then none
  else
    let led_light_time_on := bytes_to_short (pySlice data 4 6)
    let led_light_time_off := bytes_to_short (pySlice data 6 8)
    let do_not_disturb_time_on := bytes_to_short (pySlice data 9 11)
    let do_not_disturb_time_off := bytes_to_short (pySlice data 11 13)
    some
      [("smart_time_on", .int (data.getD 0 0)),
       ("smart_time_off", .int (data.getD 1 0)),
       ("led_switch", .int (data.getD 2 0)),
       ("led_brightness", .int (data.getD 3 0)),
       ("led_light_time_on", .int led_light_time_on),
       ("led_light_time_on_readable", .str (minutes_to_timestamp led_light_time_on)),
       ("led_on_byte1", .int (data.getD 4 0)),
       ("led_on_byte2", .int (data.getD 5 0)),
       ("led_light_time_off", .int led_light_time_off),
       ("led_light_time_off_readable", .str (minutes_to_timestamp led_light_time_off)),
       ("led_off_byte1", .int (data.getD 6 0)),
       ("led_off_byte2", .int (data.getD 7 0)),
       ("do_not_disturb_switch", .int (data.getD 8 0)),
       ("do_not_disturb_time_on", .int do_not_disturb_time_on),
       ("do_not_disturb_time_on_readable", .str (minutes_to_timestamp do_not_disturb_time_on)),
       ("dnd_on_byte1", .int (data.getD 9 0)),
       ("dnd_on_byte2", .int (data.getD 10 0)),
       ("do_not_disturb_time_off", .int do_not_disturb_time_off),
       ("do_not_disturb_time_off_readable", .str (minutes_to_timestamp do_not_disturb_time_off)),
       ("dnd_off_byte1", .int (data.getD 11 0)),
       ("dnd_off_byte2", .int (data.getD 12 0)),
       ("is_locked", .int (data.getD 13 0))]

/-- `Utils.extract_device_id`: slice `data[2:8]`, big-endian unsigned. -/
def extract_device_id (data : List Nat) : List Nat × Nat :=
  let bytes := pySlice data 2 8
  (bytes, int_from_bytes bytes)

/-- `Utils.extract_serial_number`: slice `data[8:23]` as ASCII characters. -/
def extract_serial_number (data : List Nat) : String :=
  String.mk ((pySlice data 8 23).map Char.ofNat)

/-- `Parsers.device_identifiers` (cmd 213): slicing never raises. -/
def device_identifiers (data : List Nat) (aliasName : String) : Option PyDict :=
  some
    [("device_id", .int (extract_device_id data).2),
     ("device_id_bytes", .nats (extract_device_id data).1),
     ("serial", .str (extract_serial_number data))]

/-- Day of month of `time.gmtime(ts)` (civil-from-days on the Unix epoch). -/
def gmtime_mday (ts : Nat) : Nat :=
  let z := ts / 86400 + 719468
  let doe := z % 146097
  let yoe := (doe - doe / 1460 + doe / 36524 - doe / 146096) / 365
  let doy := doe - (365 * yoe + yoe / 4 - yoe / 100)
  let mp := (5 * doy + 2) / 153
  doy - (153 * mp + 2) / 5 + 1

/-- Hour of `time.gmtime(ts)`. -/
def gmtime_hour (ts : Nat) : Nat := ts % 86400 / 3600

/-- Minute of `time.gmtime(ts)`. -/
def gmtime_min (ts : Nat) : Nat := ts % 3600 / 60

/-- `Utils.get_timestamp_days`: `strftime("%-d days, %-H hours", gmtime(ts))`. -/
def get_timestamp_days (timestamp : Nat) : String :=
  toString (gmtime_mday timestamp) ++ " days, " ++ toString (gmtime_hour timestamp) ++ " hours"

/-- `Utils.get_timestamp_hours`: `strftime("%-H:%-Mh", gmtime(ts))`. -/
def get_timestamp_hours (timestamp : Nat) : String :=
  toString (gmtime_hour timestamp) ++ ":" ++ toString (gmtime_min timestamp) ++ "h"

/-- `Parsers.device_status` (cmd 230): 29-byte payload; derived values through
`calculate_values` (which raises `ZeroDivisionError` when the selected
`time_on` is zero, propagated here as `none`). -/
def device_status (data : List Nat) (aliasName : String) : Option PyDict :=
  if data.length < 29 then none
  else
    match calculate_values (data.getD 1 0) ((byte_to_integer (data.getD 10 0) : ℚ) / 100)
        ((data.getD 16 0 : Nat) : ℚ) ((data.getD 17 0 : Nat) : ℚ) aliasName
        ((bytes_to_integer (pySlice data 12 16) : Nat) : ℚ)
        ((bytes_to_integer (pySlice data 6 10) : Nat) : ℚ) with
    | none => none
    | some (filter_time_left, purified_water, purified_water_today, energy_consumed) =>
      let led_light_time_on := bytes_to_short (pySlice data 20 22)
      let led_light_time_off := bytes_to_short (pySlice data 22 24)
      let do_not_disturb_time_on := bytes_to_short (pySlice data 25 27)
      let do_not_disturb_time_off := bytes_to_short (pySlice data 27 29)
      some
        [("power_status", .int (data.getD 0 0)),
         ("mode", .int (data.getD 1 0)),
         ("dnd_state", .int (data.getD 2 0)),
         ("warning_breakdown", .int (data.getD 3 0)),
         ("warning_water_missing", .int (data.getD 4 0)),
         ("warning_filter", .int (data.getD 5 0)),
         ("pump_runtime", .int (bytes_to_integer (pySlice data 6 10))),
         ("filter_percentage", .rat ((byte_to_integer (data.getD 10 0) : ℚ) / 100)),
         ("running_status", .int (byte_to_integer (data.getD 11 0))),
         ("pump_runtime_today", .int (bytes_to_integer (pySlice data 12 16))),
         ("smart_time_on", .int (data.getD 16 0)),
         ("smart_time_off", .int (data.getD 17 0)),
         ("led_switch", .int (data.getD 18 0)),
         ("led_brightness", .int (data.getD 19 0)),
         ("led_light_time_on", .int led_light_time_on),
         ("led_light_time_on_readable", .str (minutes_to_timestamp led_light_time_on)),
         ("led_on_byte1", .int (data.getD 20 0)),
         ("led_on_byte2", .int (data.getD 21 0)),
         ("led_light_time_off", .int led_light_time_off),
         ("led_light_time_off_readable", .str (minutes_to_timestamp led_light_time_off)),
         ("led_off_byte1", .int (data.getD 22 0)),
         ("led_off_byte2", .int (data.getD 23 0)),
         ("do_not_disturb_switch", .int (data.getD 24 0)),
         ("do_not_disturb_time_on", .int do_not_disturb_time_on),
         ("do_not_disturb_time_on_readable", .str (minutes_to_timestamp do_not_disturb_time_on)),
         ("dnd_on_byte1", .int (data.getD 25 0)),
         ("dnd_on_byte2", .int (data.getD 26 0)),
         ("do_not_disturb_time_off", .int do_not_disturb_time_off),
         ("do_not_disturb_time_off_readable", .str (minutes_to_timestamp do_not_disturb_time_off)),
         ("dnd_off_byte1", .int (data.getD 27 0)),
         ("dnd_off_byte2", .int (data.getD 28 0)),
         ("pump_runtime_readable", .str (get_timestamp_days (bytes_to_integer (pySlice data 6 10)))),
         ("pump_runtime_today_readable", .str (get_timestamp_hours (bytes_to_integer (pySlice data 12 16)))),
         ("filter_time_left", .int filter_time_left),
         ("purified_water", .rat purified_water),
         ("purified_water_today", .rat purified_water_today),
         ("energy_consumed", .str energy_consumed)]

/-! ## Notification dispatch (`event_handlers.py`) -/

/-- The keys of `EventHandlers.handlers` (cmd 73 is commented out in the
source). -/
def handlers_cmds : List Nat := [66, 86, 200, 210, 211, 213, 230]

/-- Dispatch to the registered parser for a handled command. -/
def run_handler (cmd : Nat) (data : List Nat) (aliasName : String) : Option PyDict :=
  if cmd = 66 then device_battery data aliasName
  else if cmd = 86 then device_synchronization data aliasName
  else if cmd = 200 then device_firmware data aliasName
  else if cmd = 210 then device_state data aliasName
  else if cmd = 211 then device_configuration data aliasName
  else if cmd = 213 then device_identifiers data aliasName
  else if cmd = 230 then device_status data aliasName
  else none

/-- `self.device.alias` read from the attribute dictionary. -/
def device_alias (d : PyDict) : String :=
  match d.lookup "alias" with
  | some (.str s) => s
  | _ => ""

/-- `EventHandlers.handle_notification`: parse the message, run the handler
registered for its `cmd` byte (if any), push the result through
`device.info` (cmds 86/200/213) and `device.status` (cmds 66/210/211/230),
and return the parsed frame.  Any raised exception is `none`. -/
def handle_notification (device : PyDict) (message : List Nat) : Option (Frame × PyDict) :=
  (parse_bytearray message).bind fun parsed_data =>
    if parsed_data.cmd ∈ handlers_cmds then
      (run_handler parsed_data.cmd parsed_data.data (device_alias device)).bind fun data =>
        let step1 := if parsed_data.cmd ∈ ([86, 200, 213] : List Nat)
                     then info_setter device data else (device, none)
        match step1.2 with
        | some _ => none
        | none =>
          let step2 := if parsed_data.cmd ∈ ([66, 210, 211, 230] : List Nat)
                       then status_setter step1.1 data else (step1.1, none)
          match step2.2 with
          | some _ => none
          | none => some (parsed_data, step2.1)
    else some (parsed_data, device)

/-! ## Connection supervisor (`ha_bluetooth_adapter.py`) -/

/-- `ConnectionStatus` enum. -/
inductive ConnectionStatus where
  | disconnected
  | connecting
  | connected
  | reconnecting
  | failed
deriving DecidableEq, Repr

/-- The connection-tracking fields of `HABluetoothAdapter`; time is modelled
as whole seconds (`Nat`). -/
structure SupervisorState where
  connection_status : ConnectionStatus
  connection_attempts : Nat
  last_logged_status : Option ConnectionStatus
  retry_delay : ℚ
  last_reset_time : Nat
  max_connection_attempts : Nat
  connection_error : Option String
  last_seen : Option Nat
  last_connection_attempt : Option Nat
deriving DecidableEq, Repr

/-- `HABluetoothAdapter.__init__`: disconnected, zero attempts, retry delay
0.1 s, attempt budget 1000, `_last_reset_time = time.time()` (the
construction instant `t0`). -/
def supervisor_init (t0 : Nat) : SupervisorState :=
  { connection_status := .disconnected
    connection_attempts := 0
    last_logged_status := none
    retry_delay := 0.1
    last_reset_time := t0
    max_connection_attempts := 1000
    connection_error := none
    last_seen := none
    last_connection_attempt := none }

/-- `_update_connection_status(status, error)`: store the status (and the
error text when given); when the status differs from the previous one or
from the last logged one, the transition is logged, a CONNECTED transition
additionally resets the attempt counter and the retry delay, and the status
becomes the last logged one. -/
def update_connection_status (s : SupervisorState) (status : ConnectionStatus)
    (error : Option String) : SupervisorState :=
  let old_status := s.connection_status
  let s := { s with connection_status := status }
  let s := match error with
           | some e => { s with connection_error := some e }
           | none => s
  if old_status ≠ status ∨ s.last_logged_status ≠ some status then
    let s := if status = .connected
             then { s with connection_attempts := 0, retry_delay := 1 }
             else s
    { s with last_logged_status := some status }
  else s

/-- `_should_attempt_retry()`: after the 300 s reset interval an exhausted
attempt counter is auto-reset (and a FAILED status downgraded to
DISCONNECTED); returns whether `attempts < max_attempts`. -/
def should_attempt_retry (s : SupervisorState) (now : Nat) : SupervisorState × Bool :=
  let s :=
    if 300 ≤ now - s.last_reset_time then
      if s.max_connection_attempts ≤ s.connection_attempts then
        let s := { s with connection_attempts := 0, retry_delay := 1, last_reset_time := now }
        if s.connection_status = .failed
        then { s with connection_status := .disconnected } else s
      else s
    else s
  (s, s.connection_attempts < s.max_connection_attempts)

/-- Outcome of the underlying transport operations inside
`connect_device`: the device was found and the connection established
(`success`), the device missing from the HA scan (`notFound`),
`asyncio.TimeoutError` (`timeout`), or another exception (`failure`). -/
inductive ConnectOutcome where
  | success
  | notFound
  | timeout
  | failure (err : String)
deriving DecidableEq, Repr

/-- `HABluetoothAdapter.connect_device(address)` as a transition on the
tracking state, given the wall-clock time `now` and the transport outcome:
CONNECTING (first attempt) or RECONNECTING status at entry, then on success
CONNECTED with `last_seen` updated, and on any failure an attempt-counter
increment followed by RECONNECTING or FAILED depending on
`_should_attempt_retry`.  The Bool is the method's return value. -/
def connect_device (s : SupervisorState) (address : String) (now : Nat)
    (outcome : ConnectOutcome) : SupervisorState × Bool :=
  let s := if s.connection_attempts = 0
           then update_connection_status s .connecting none
           else update_connection_status s .reconnecting none
  let s := { s with last_connection_attempt := some now }
  match outcome with
  | .success =>
      let s := update_connection_status s .connected none
      let s := { s with last_seen := some now }
      (s, true)
  | .notFound =>
      let error_msg := "Device " ++ address ++ " not found in HA bluetooth scan"
      let s := { s with connection_attempts := s.connection_attempts + 1 }
      let p := should_attempt_retry s now
      let s := if p.2
               then update_connection_status p.1 .reconnecting (some error_msg)
               else update_connection_status p.1 .failed (some error_msg)
      (s, false)
  | .timeout =>
      let s := { s with connection_attempts := s.connection_attempts + 1 }
      let error_msg := "Connection timeout (attempt #" ++
        toString s.connection_attempts ++ ")"
      let p := should_attempt_retry s now
      let s := if p.2
               then update_connection_status p.1 .reconnecting (some error_msg)
               else update_connection_status p.1 .failed (some error_msg)
      (s, false)
  | .failure err =>
      let s := { s with connection_attempts := s.connection_attempts + 1 }
      let error_msg := "Connection attempt " ++
        toString s.connection_attempts ++ " failed: " ++ err
      let p := should_attempt_retry s now
      let s := if p.2
               then update_connection_status p.1 .reconnecting (some error_msg)
               else update_connection_status p.1 .failed (some error_msg)
      (s, false)

/-- A run of consecutive `connect_device` calls (time and outcome each). -/
def fail_run (address : String) (s : SupervisorState)
    (calls : List (Nat × ConnectOutcome)) : SupervisorState :=
  calls.foldl (fun s c => (connect_device s address c.1 c.2).1) s

/-! ## Theorems: C1, C2 -/

/-- Helper: under the byte bounds, `build_command` succeeds and produces the
concrete frame layout. -/
theorem build_command_eq (seq cmd ty : Nat) (data : List Nat)
    (hseq : seq < 256) (hcmd : cmd < 256) (hty : ty < 256)
    (hlen : data.length ≤ 255) (hdata : ∀ b ∈ data, b < 256) :
    build_command seq cmd ty data =
      some (250 :: 252 :: 253 :: cmd :: ty :: seq :: data.length :: 0 :: (data ++ [251])) := by
  unfold build_command
  rw [if_pos]
  · rfl
  · simp only [List.all_append, Bool.and_eq_true, List.all_eq_true, decide_eq_true_eq]
    refine ⟨⟨⟨?_, ?_⟩, hdata⟩, ?_⟩ <;> intro b hb <;>
      simp only [List.mem_cons, List.mem_singleton, List.not_mem_nil, or_false] at hb
    · rcases hb with rfl | rfl | rfl <;> omega
    · rcases hb with rfl | rfl | rfl | rfl | rfl <;> omega
    · rcases hb with rfl; omega

/-- **C1.** For every `seq`, `cmd`, `type` in `0..255` and byte-list payload of
length at most 255, parsing the frame produced by `build_command` recovers
exactly the input command, type, sequence and payload (and the constant
header, length byte, start byte and end byte). -/
theorem c1_build_parse_roundtrip (seq cmd ty : Nat) (data : List Nat)
    (hseq : seq < 256) (hcmd : cmd < 256) (hty : ty < 256)
    (hlen : data.length ≤ 255) (hdata : ∀ b ∈ data, b < 256) :
    (build_command seq cmd ty data).bind parse_bytearray =
      some { header := [250, 252, 253], cmd := cmd, type := ty, seq := seq,
             data_length := data.length, data_start := 0, data := data,
             end_byte := 251 } := by
  rw [build_command_eq seq cmd ty data hseq hcmd hty hlen hdata, Option.some_bind]
  unfold parse_bytearray
  rw [if_neg (by simp only [List.length_cons, List.length_append, List.length_nil]; omega)]
  congr 1
  rw [Frame.mk.injEq]
  refine ⟨rfl, rfl, rfl, rfl, rfl, rfl, ?_, ?_⟩
  · show (data ++ [251]).dropLast = data
    exact List.dropLast_concat
  · have h1 : (250 :: 252 :: 253 :: cmd :: ty :: seq :: data.length :: 0 :: (data ++ [251])).length - 1
        = (250 :: 252 :: 253 :: cmd :: ty :: seq :: data.length :: (0 : Nat) :: data).length := by
      simp
    rw [h1]
    show ((250 :: 252 :: 253 :: cmd :: ty :: seq :: data.length :: 0 :: data) ++ [251]).getD
        (250 :: 252 :: 253 :: cmd :: ty :: seq :: data.length :: 0 :: data).length 0 = 251
    rw [List.getD_append_right _ _ _ _ (Nat.le_refl _), Nat.sub_self]
    rfl

/-- Witness for C1 at `seq = 1`, `cmd = 2`, `type = 3`, `payload = [7, 8]`. -/
theorem c1_build_parse_roundtrip_witness :
    (build_command 1 2 3 [7, 8]).bind parse_bytearray =
      some { header := [250, 252, 253], cmd := 2, type := 3, seq := 1,
             data_length := 2, data_start := 0, data := [7, 8],
             end_byte := 251 } :=
  c1_build_parse_roundtrip 1 2 3 [7, 8] (by decide) (by decide) (by decide)
    (by decide) (by decide)

/-- **C2, counterexample.** The claim says the parser fails on every input whose
first three bytes differ from `FA FC FD` and on every input shorter than 9
bytes.  In the code `parse_bytearray` performs no validation: it succeeds on a
9-byte all-zero input (wrong header, wrong end byte) and also on an 8-byte
input. -/
theorem c2_no_validation_counterexample :
    parse_bytearray [0, 0, 0, 0, 0, 0, 0, 0, 0] ≠ none ∧
    [(0 : Nat), 0, 0] ≠ [250, 252, 253] ∧
    parse_bytearray [0, 0, 0, 0, 0, 0, 0, 0] ≠ none := by
  refine ⟨?_, by decide, ?_⟩ <;> simp [parse_bytearray]

/-- **C2, amended.** `parse_bytearray` fails (raises `IndexError`) exactly on
inputs shorter than 8 bytes; on any input of length at least 8 it returns a
parsed frame without checking the header bytes or the end byte. -/
theorem c2_parse_fails_iff_short (byte_array : List Nat) :
    parse_bytearray byte_array = none ↔ byte_array.length < 8 := by
  unfold parse_bytearray
  split <;> simp_all

/-! ## Theorems: C6, C7, C10 -/

/-- **C6.** For every `filter_percentage` and `time_on ≠ 0`,
`calculate_remaining_filter_time` equals
`ceil(filter_percentage * 30 * (time_on + time_off) / time_on)`;
`calculate_values` selects `(1, 0)` when `mode == 1` and
`(smart_time_on, smart_time_off)` otherwise; and
`calculate_remaining_filter_time 0.5 30 60 = 45`. -/
theorem c6_filter_time_formula (fp time_on time_off st_on st_off : ℚ) (mode : Nat)
    (aliasName : String) (prt pr : ℚ) (h : time_on ≠ 0) :
    calculate_remaining_filter_time fp time_on time_off =
      some ⌈fp * 30 * (time_on + time_off) / time_on⌉ ∧
    (calculate_values mode fp st_on st_off aliasName prt pr).map Prod.fst =
      calculate_remaining_filter_time fp (if mode = 1 then 1 else st_on)
        (if mode = 1 then 0 else st_off) ∧
    calculate_remaining_filter_time 0.5 30 60 = some 45 := by
  refine ⟨?_, ?_, ?_⟩
  · rw [calculate_remaining_filter_time, if_neg h]
    norm_num
  · unfold calculate_values
    cases hm : calculate_remaining_filter_time fp (if mode = 1 then 1 else st_on)
        (if mode = 1 then 0 else st_off) <;> simp [hm]
  · unfold calculate_remaining_filter_time
    rw [if_neg (by norm_num)]
    rw [show ((0.5 : ℚ) * 30.0) * ((30 : ℚ) + 60) / 30 = ((45 : Int) : ℚ) by norm_num]
    rw [Int.ceil_intCast]

/-- Witness for C6 at `filter_percentage = 0.5`, `time_on = 30`, `time_off = 60`. -/
theorem c6_filter_time_formula_witness :
    (30 : ℚ) ≠ 0 ∧ calculate_remaining_filter_time 0.5 30 60 = some 45 :=
  ⟨by norm_num, (c6_filter_time_formula 0.5 30 60 1 0 2 "W5" 3 4 (by norm_num)).2.2⟩

/-- **C7.** `calculate_water_purified` equals `(1.3·rt/60)/1.0` for `"W5C"`,
`(1.5·rt/60)/1.8` for `"W4X"`, and `(1.5·rt/60)/2.0` for any other alias;
`calculate_energy_usage` equals `0.182/3 600 000` for `"W5C"` and
`(0.75·rt)/3 600 000` otherwise. -/
theorem c7_alias_piecewise_formulas (aliasName : String) (rt : ℚ)
    (h1 : aliasName ≠ "W5C") (h2 : aliasName ≠ "W4X") :
    calculate_water_purified "W5C" rt = (1.3 * rt / 60) / 1.0 ∧
    calculate_water_purified "W4X" rt = (1.5 * rt / 60) / 1.8 ∧
    calculate_water_purified aliasName rt = (1.5 * rt / 60) / 2.0 ∧
    calculate_energy_usage "W5C" rt = 0.182 / 3600000 ∧
    calculate_energy_usage aliasName rt = (0.75 * rt) / 3600000 := by
  unfold calculate_water_purified calculate_energy_usage
  refine ⟨?_, ?_, ?_, ?_, ?_⟩ <;> simp [h1, h2] <;> norm_num

/-- Witness for C7 at `alias = "XX"`, `rt = 7`. -/
theorem c7_alias_piecewise_formulas_witness :
    ("XX" : String) ≠ "W5C" ∧
    calculate_water_purified "XX" 7 = (1.5 * 7 / 60) / 2.0 :=
  ⟨by decide, (c7_alias_piecewise_formulas "XX" 7 (by decide) (by decide)).2.2.1⟩

/-- **C10.** `minutes_to_timestamp` is total: for every integer it renders
`f"{m // 60:02d}:{m % 60:02d}"` with floor division and a minute part in
`0..59`, and `minutes_to_timestamp (-10) = "-1:50"`. -/
theorem c10_minutes_to_timestamp_total :
    (∀ m : Int,
      minutes_to_timestamp m = format02d (m.fdiv 60) ++ ":" ++ format02d (m.fmod 60) ∧
      0 ≤ m.fmod 60 ∧ m.fmod 60 < 60) ∧
    minutes_to_timestamp (-10) = "-1:50" := by
  refine ⟨fun m => ⟨rfl, ?_, ?_⟩, by decide⟩
  · exact Int.fmod_nonneg' m (by norm_num)
  · exact Int.fmod_lt_of_pos m (by norm_num)

/-! ## Theorem: C5 -/

/-- **C5.** Starting from a fresh `Commands` instance with counter 0, the
`k`-th send (0-indexed) places `k % 256` in the frame's seq byte (index 5)
and the counter itself equals `k % 256` before the send: the counter wraps
to 0 exactly after 255, so sends number 0..256 use 0, 1, ..., 255, 0 — in
particular the 257th send (index 256) uses sequence 0. -/
theorem c5_sequence_counter_wraps (k : Nat) :
    increment_sequence^[k] 0 = k % 256 ∧
    ((get_battery (increment_sequence^[k] 0)).1).map (fun frame => frame.getD 5 0) =
      some (k % 256) := by
  have hiter : ∀ n : Nat, increment_sequence^[n] 0 = n % 256 := by
    intro n
    induction n with
    | zero => simp
    | succ n ih =>
      rw [Function.iterate_succ_apply', ih]
      simp only [increment_sequence]
      split <;> omega
  refine ⟨hiter k, ?_⟩
  rw [hiter k]
  rw [show (get_battery (k % 256)).1 = build_command (k % 256) 66 1 [0, 0] from rfl]
  rw [build_command_eq _ _ _ _ (Nat.mod_lt k (by norm_num)) (by norm_num) (by norm_num)
    (by norm_num) (by decide)]
  rfl

/-! ## Theorems: C3 (device-state setter) -/

/-- `setAttr` on an existing key preserves the set of attribute names. -/
theorem hasAttr_setAttr (d : PyDict) (k k' : String) (v : Val)
    (h : hasAttr d k' = true) :
    hasAttr (setAttr d k' v) k = hasAttr d k := by
  induction d with
  | nil => simp [hasAttr] at h
  | cons p rest ih =>
    obtain ⟨k₀, v₀⟩ := p
    by_cases hke : k₀ = k'
    · subst hke
      simp only [setAttr, if_pos rfl]
      cases hkk : k == k₀ <;> simp [hasAttr, List.lookup, hkk]
    · have h' : hasAttr rest k' = true := by
        have hne : (k' == k₀) = false := beq_eq_false_iff_ne.mpr (fun hh => hke hh.symm)
        simpa [hasAttr, List.lookup, hne] using h
      simp only [setAttr, if_neg hke]
      cases hkk : k == k₀
      · simpa [hasAttr, List.lookup, hkk] using ih h'
      · simp [hasAttr, List.lookup, hkk]

/-- The setter loop applied to `valid ++ (k, v) :: rest`, where every key of
`valid` is whitelisted and `k` is not: the `valid` prefix is applied in
order, then the error naming `k` is raised; nothing after `k` is touched. -/
theorem set_fields_append_invalid (pre msg : String) :
    ∀ (valid : List (String × Val)) (d : PyDict) (k : String) (v : Val)
      (rest : List (String × Val)),
      (∀ p ∈ valid, hasAttr d (pre ++ p.1) = true) →
      hasAttr d (pre ++ k) = false →
      set_fields pre msg d (valid ++ (k, v) :: rest) =
        (valid.foldl (fun acc p => setAttr acc (pre ++ p.1) p.2) d, some (msg ++ k))
  | [], d, k, v, rest, _, hk => by
      simp only [List.nil_append, List.foldl_nil, set_fields]
      rw [if_neg (by simp [hk])]
  | (k₀, v₀) :: ps, d, k, v, rest, hvalid, hk => by
      have hmem : hasAttr d (pre ++ k₀) = true := hvalid (k₀, v₀) (List.mem_cons_self _ _)
      simp only [List.cons_append, List.foldl_cons, set_fields]
      rw [if_pos (by simp [hmem])]
      exact set_fields_append_invalid pre msg ps (setAttr d (pre ++ k₀) v₀) k v rest
        (fun q hq => by
          rw [hasAttr_setAttr _ _ _ _ hmem]
          exact hvalid q (List.mem_cons_of_mem _ hq))
        (by rw [hasAttr_setAttr _ _ _ _ hmem]; exact hk)

/-- **C3, counterexample.** The claim says an update mapping containing an
unknown key leaves every field unchanged.  In the code the setter applies
entries one by one: `{"battery": 5, "unknown_key": 1}` raises the `KeyError`
but has already written `_battery`, so the device differs from its initial
state. -/
theorem c3_partial_update_counterexample :
    (status_setter (device_init "00:11:22:33:44:55")
        [("battery", Val.int 5), ("unknown_key", Val.int 1)]).2 =
      some "Invalid device.status key: unknown_key" ∧
    (status_setter (device_init "00:11:22:33:44:55")
        [("battery", Val.int 5), ("unknown_key", Val.int 1)]).1 ≠
      device_init "00:11:22:33:44:55" := by
  constructor
  · decide
  · decide

/-- **C3, amended.** An update mapping whose first non-whitelisted key is `k`
raises `KeyError` naming `k`; the valid entries listed before `k` are
applied (in order), and no entry from `k` onwards is applied. -/
theorem c3_status_setter_first_invalid_key (d : PyDict) (valid : List (String × Val))
    (k : String) (v : Val) (rest : List (String × Val))
    (hvalid : ∀ p ∈ valid, hasAttr d ("_" ++ p.1) = true)
    (hk : hasAttr d ("_" ++ k) = false) :
    status_setter d (valid ++ (k, v) :: rest) =
      (valid.foldl (fun acc p => setAttr acc ("_" ++ p.1) p.2) d,
       some ("Invalid device.status key: " ++ k)) :=
  set_fields_append_invalid "_" "Invalid device.status key: " valid d k v rest hvalid hk

/-- Witness for the amended C3 at the counterexample's input. -/
theorem c3_status_setter_first_invalid_key_witness :
    status_setter (device_init "00:11:22:33:44:55")
        ([("battery", Val.int 5)] ++ ("unknown_key", Val.int 1) :: []) =
      ([("battery", Val.int 5)].foldl (fun acc p => setAttr acc ("_" ++ p.1) p.2)
          (device_init "00:11:22:33:44:55"),
       some ("Invalid device.status key: " ++ "unknown_key")) :=
  c3_status_setter_first_invalid_key (device_init "00:11:22:33:44:55")
    [("battery", Val.int 5)] "unknown_key" (Val.int 1) []
    (by decide) (by decide)

/-! ## Theorem: C9 -/

/-- **C9.** For every parseable notification message whose `cmd` byte (index
3) is not one of the handled commands {66, 86, 200, 210, 211, 213, 230},
`handle_notification` returns the parsed frame and the device dictionary
completely unchanged — no status, config or info field is written. -/
theorem c9_unhandled_cmd_no_update (device : PyDict) (message : List Nat)
    (hlen : 8 ≤ message.length)
    (hcmd : message.getD 3 0 ∉ handlers_cmds) :
    handle_notification device message =
      (parse_bytearray message).map (fun parsed_data => (parsed_data, device)) := by
  have hp : parse_bytearray message = some
      { header := message.take 3, cmd := message.getD 3 0, type := message.getD 4 0,
        seq := message.getD 5 0, data_length := message.getD 6 0,
        data_start := message.getD 7 0, data := (message.drop 8).dropLast,
        end_byte := message.getD (message.length - 1) 0 } := by
    unfold parse_bytearray
    rw [if_neg (by omega)]
  unfold handle_notification
  rw [hp]
  have hcmd' : message[3]?.getD 0 ∉ handlers_cmds := by simpa using hcmd
  simp [hcmd']

/-- Witness for C9: a 9-byte message with unhandled cmd byte 99. -/
theorem c9_unhandled_cmd_no_update_witness :
    8 ≤ ([0, 0, 0, 99, 0, 0, 0, 0, 0] : List Nat).length ∧
    handle_notification (device_init "00:11:22:33:44:55") [0, 0, 0, 99, 0, 0, 0, 0, 0] =
      (parse_bytearray [0, 0, 0, 99, 0, 0, 0, 0, 0]).map
        (fun parsed_data => (parsed_data, device_init "00:11:22:33:44:55")) :=
  ⟨by decide,
   c9_unhandled_cmd_no_update (device_init "00:11:22:33:44:55") [0, 0, 0, 99, 0, 0, 0, 0, 0]
     (by decide) (by decide)⟩

/-! ## Theorems: C8 -/

/-- A two-element Python slice `l[i:i+2]` in terms of the indexed bytes. -/
theorem drop_take_two (l : List Nat) (i : Nat) (h : i + 1 < l.length) :
    (l.drop i).take 2 = [l.getD i 0, l.getD (i + 1) 0] := by
  induction l generalizing i with
  | nil => simp at h
  | cons a t ih =>
    cases i with
    | zero =>
      cases t with
      | nil => simp at h
      | cons b t' => rfl
    | succ i =>
      have h' : i + 1 < t.length := by simpa using h
      simp only [List.drop_succ_cons, List.getD_cons_succ]
      exact ih i h'

/-- `bytes_to_short` on a two-byte slice is the big-endian signed short. -/
theorem bytes_to_short_pair (a b : Nat) :
    bytes_to_short [a, b] = toSigned16 (a * 256 + b) := by
  unfold bytes_to_short toSigned16 int_from_bytes
  simp only [List.foldl, List.length_cons, List.length_nil]
  norm_num

/-- **C8.** `device_configuration` (cmd 211) reads every config field at the
layout-table offsets of a 14-byte payload (schedule fields as big-endian
signed shorts), and `device_status` (cmd 230) reads the same config fields
at offsets 16–28 of a 29-byte payload.  (The `mode = 1 ∨ smart_time_on ≠ 0`
hypothesis excludes the payloads on which `calculate_values` raises
`ZeroDivisionError` before any field is returned.) -/
theorem c8_payload_layout_offsets (d14 d29 : List Nat) (aliasStr : String)
    (h14 : d14.length = 14) (h29 : d29.length = 29)
    (hdiv : d29.getD 1 0 = 1 ∨ d29.getD 16 0 ≠ 0) :
    (((device_configuration d14 aliasStr).bind (fun out => out.lookup "smart_time_on") =
        some (.int (d14.getD 0 0))) ∧
     ((device_configuration d14 aliasStr).bind (fun out => out.lookup "smart_time_off") =
        some (.int (d14.getD 1 0))) ∧
     ((device_configuration d14 aliasStr).bind (fun out => out.lookup "led_switch") =
        some (.int (d14.getD 2 0))) ∧
     ((device_configuration d14 aliasStr).bind (fun out => out.lookup "led_brightness") =
        some (.int (d14.getD 3 0))) ∧
     ((device_configuration d14 aliasStr).bind (fun out => out.lookup "led_on_byte1") =
        some (.int (d14.getD 4 0))) ∧
     ((device_configuration d14 aliasStr).bind (fun out => out.lookup "led_on_byte2") =
        some (.int (d14.getD 5 0))) ∧
     ((device_configuration d14 aliasStr).bind (fun out => out.lookup "led_light_time_on") =
        some (.int (toSigned16 (d14.getD 4 0 * 256 + d14.getD 5 0)))) ∧
     ((device_configuration d14 aliasStr).bind (fun out => out.lookup "led_off_byte1") =
        some (.int (d14.getD 6 0))) ∧
     ((device_configuration d14 aliasStr).bind (fun out => out.lookup "led_off_byte2") =
        some (.int (d14.getD 7 0))) ∧
     ((device_configuration d14 aliasStr).bind (fun out => out.lookup "led_light_time_off") =
        some (.int (toSigned16 (d14.getD 6 0 * 256 + d14.getD 7 0)))) ∧
     ((device_configuration d14 aliasStr).bind (fun out => out.lookup "do_not_disturb_switch") =
        some (.int (d14.getD 8 0))) ∧
     ((device_configuration d14 aliasStr).bind (fun out => out.lookup "dnd_on_byte1") =
        some (.int (d14.getD 9 0))) ∧
     ((device_configuration d14 aliasStr).bind (fun out => out.lookup "dnd_on_byte2") =
        some (.int (d14.getD 10 0))) ∧
     ((device_configuration d14 aliasStr).bind (fun out => out.lookup "do_not_disturb_time_on") =
        some (.int (toSigned16 (d14.getD 9 0 * 256 + d14.getD 10 0)))) ∧
     ((device_configuration d14 aliasStr).bind (fun out => out.lookup "dnd_off_byte1") =
        some (.int (d14.getD 11 0))) ∧
     ((device_configuration d14 aliasStr).bind (fun out => out.lookup "dnd_off_byte2") =
        some (.int (d14.getD 12 0))) ∧
     ((device_configuration d14 aliasStr).bind (fun out => out.lookup "do_not_disturb_time_off") =
        some (.int (toSigned16 (d14.getD 11 0 * 256 + d14.getD 12 0)))) ∧
     ((device_configuration d14 aliasStr).bind (fun out => out.lookup "is_locked") =
        some (.int (d14.getD 13 0)))) ∧
    (((device_status d29 aliasStr).bind (fun out => out.lookup "smart_time_on") =
        some (.int (d29.getD 16 0))) ∧
     ((device_status d29 aliasStr).bind (fun out => out.lookup "smart_time_off") =
        some (.int (d29.getD 17 0))) ∧
     ((device_status d29 aliasStr).bind (fun out => out.lookup "led_switch") =
        some (.int (d29.getD 18 0))) ∧
     ((device_status d29 aliasStr).bind (fun out => out.lookup "led_brightness") =
        some (.int (d29.getD 19 0))) ∧
     ((device_status d29 aliasStr).bind (fun out => out.lookup "led_on_byte1") =
        some (.int (d29.getD 20 0))) ∧
     ((device_status d29 aliasStr).bind (fun out => out.lookup "led_on_byte2") =
        some (.int (d29.getD 21 0))) ∧
     ((device_status d29 aliasStr).bind (fun out => out.lookup "led_light_time_on") =
        some (.int (toSigned16 (d29.getD 20 0 * 256 + d29.getD 21 0)))) ∧
     ((device_status d29 aliasStr).bind (fun out => out.lookup "led_off_byte1") =
        some (.int (d29.getD 22 0))) ∧
     ((device_status d29 aliasStr).bind (fun out => out.lookup "led_off_byte2") =
        some (.int (d29.getD 23 0))) ∧
     ((device_status d29 aliasStr).bind (fun out => out.lookup "led_light_time_off") =
        some (.int (toSigned16 (d29.getD 22 0 * 256 + d29.getD 23 0)))) ∧
     ((device_status d29 aliasStr).bind (fun out => out.lookup "do_not_disturb_switch") =
        some (.int (d29.getD 24 0))) ∧
     ((device_status d29 aliasStr).bind (fun out => out.lookup "dnd_on_byte1") =
        some (.int (d29.getD 25 0))) ∧
     ((device_status d29 aliasStr).bind (fun out => out.lookup "dnd_on_byte2") =
        some (.int (d29.getD 26 0))) ∧
     ((device_status d29 aliasStr).bind (fun out => out.lookup "do_not_disturb_time_on") =
        some (.int (toSigned16 (d29.getD 25 0 * 256 + d29.getD 26 0)))) ∧
     ((device_status d29 aliasStr).bind (fun out => out.lookup "dnd_off_byte1") =
        some (.int (d29.getD 27 0))) ∧
     ((device_status d29 aliasStr).bind (fun out => out.lookup "dnd_off_byte2") =
        some (.int (d29.getD 28 0))) ∧
     ((device_status d29 aliasStr).bind (fun out => out.lookup "do_not_disturb_time_off") =
        some (.int (toSigned16 (d29.getD 27 0 * 256 + d29.getD 28 0))))) := by
  have e46 : pySlice d14 4 6 = [d14.getD 4 0, d14.getD 5 0] := drop_take_two d14 4 (by omega)
  have e68 : pySlice d14 6 8 = [d14.getD 6 0, d14.getD 7 0] := drop_take_two d14 6 (by omega)
  have e911 : pySlice d14 9 11 = [d14.getD 9 0, d14.getD 10 0] := drop_take_two d14 9 (by omega)
  have e1113 : pySlice d14 11 13 = [d14.getD 11 0, d14.getD 12 0] :=
    drop_take_two d14 11 (by omega)
  have hcfg : device_configuration d14 aliasStr = some
      [("smart_time_on", .int (d14.getD 0 0)),
       ("smart_time_off", .int (d14.getD 1 0)),
       ("led_switch", .int (d14.getD 2 0)),
       ("led_brightness", .int (d14.getD 3 0)),
       ("led_light_time_on", .int (toSigned16 (d14.getD 4 0 * 256 + d14.getD 5 0))),
       ("led_light_time_on_readable",
         .str (minutes_to_timestamp (toSigned16 (d14.getD 4 0 * 256 + d14.getD 5 0)))),
       ("led_on_byte1", .int (d14.getD 4 0)),
       ("led_on_byte2", .int (d14.getD 5 0)),
       ("led_light_time_off", .int (toSigned16 (d14.getD 6 0 * 256 + d14.getD 7 0))),
       ("led_light_time_off_readable",
         .str (minutes_to_timestamp (toSigned16 (d14.getD 6 0 * 256 + d14.getD 7 0)))),
       ("led_off_byte1", .int (d14.getD 6 0)),
       ("led_off_byte2", .int (d14.getD 7 0)),
       ("do_not_disturb_switch", .int (d14.getD 8 0)),
       ("do_not_disturb_time_on", .int (toSigned16 (d14.getD 9 0 * 256 + d14.getD 10 0))),
       ("do_not_disturb_time_on_readable",
         .str (minutes_to_timestamp (toSigned16 (d14.getD 9 0 * 256 + d14.getD 10 0)))),
       ("dnd_on_byte1", .int (d14.getD 9 0)),
       ("dnd_on_byte2", .int (d14.getD 10 0)),
       ("do_not_disturb_time_off", .int (toSigned16 (d14.getD 11 0 * 256 + d14.getD 12 0))),
       ("do_not_disturb_time_off_readable",
         .str (minutes_to_timestamp (toSigned16 (d14.getD 11 0 * 256 + d14.getD 12 0)))),
       ("dnd_off_byte1", .int (d14.getD 11 0)),
       ("dnd_off_byte2", .int (d14.getD 12 0)),
       ("is_locked", .int (d14.getD 13 0))] := by
    unfold device_configuration
    rw [if_neg (by omega), e46, e68, e911, e1113,
      bytes_to_short_pair, bytes_to_short_pair, bytes_to_short_pair, bytes_to_short_pair]
  constructor
  · rw [hcfg]
    and_intros <;> rfl
  · have htime : (if d29.getD 1 0 = 1 then (1 : ℚ) else ((d29.getD 16 0 : Nat) : ℚ)) ≠ 0 := by
      rcases hdiv with h | h
      · rw [if_pos h]; norm_num
      · by_cases hm : d29.getD 1 0 = 1
        · rw [if_pos hm]; norm_num
        · rw [if_neg hm]
          exact_mod_cast h
    have e2022 : pySlice d29 20 22 = [d29.getD 20 0, d29.getD 21 0] :=
      drop_take_two d29 20 (by omega)
    have e2224 : pySlice d29 22 24 = [d29.getD 22 0, d29.getD 23 0] :=
      drop_take_two d29 22 (by omega)
    have e2527 : pySlice d29 25 27 = [d29.getD 25 0, d29.getD 26 0] :=
      drop_take_two d29 25 (by omega)
    have e2729 : pySlice d29 27 29 = [d29.getD 27 0, d29.getD 28 0] :=
      drop_take_two d29 27 (by omega)
    cases hcv : calculate_values (d29.getD 1 0) ((byte_to_integer (d29.getD 10 0) : ℚ) / 100)
        ((d29.getD 16 0 : Nat) : ℚ) ((d29.getD 17 0 : Nat) : ℚ) aliasStr
        ((bytes_to_integer (pySlice d29 12 16) : Nat) : ℚ)
        ((bytes_to_integer (pySlice d29 6 10) : Nat) : ℚ) with
    | none =>
      exfalso
      simp only [calculate_values, calculate_remaining_filter_time] at hcv
      rw [if_neg htime] at hcv
      simp at hcv
    | some tup =>
      obtain ⟨ftl, pw, pwt, ec⟩ := tup
      have hst : device_status d29 aliasStr = some
          [("power_status", .int (d29.getD 0 0)),
           ("mode", .int (d29.getD 1 0)),
           ("dnd_state", .int (d29.getD 2 0)),
           ("warning_breakdown", .int (d29.getD 3 0)),
           ("warning_water_missing", .int (d29.getD 4 0)),
           ("warning_filter", .int (d29.getD 5 0)),
           ("pump_runtime", .int (bytes_to_integer (pySlice d29 6 10))),
           ("filter_percentage", .rat ((byte_to_integer (d29.getD 10 0) : ℚ) / 100)),
           ("running_status", .int (byte_to_integer (d29.getD 11 0))),
           ("pump_runtime_today", .int (bytes_to_integer (pySlice d29 12 16))),
           ("smart_time_on", .int (d29.getD 16 0)),
           ("smart_time_off", .int (d29.getD 17 0)),
           ("led_switch", .int (d29.getD 18 0)),
           ("led_brightness", .int (d29.getD 19 0)),
           ("led_light_time_on", .int (toSigned16 (d29.getD 20 0 * 256 + d29.getD 21 0))),
           ("led_light_time_on_readable",
             .str (minutes_to_timestamp (toSigned16 (d29.getD 20 0 * 256 + d29.getD 21 0)))),
           ("led_on_byte1", .int (d29.getD 20 0)),
           ("led_on_byte2", .int (d29.getD 21 0)),
           ("led_light_time_off", .int (toSigned16 (d29.getD 22 0 * 256 + d29.getD 23 0))),
           ("led_light_time_off_readable",
             .str (minutes_to_timestamp (toSigned16 (d29.getD 22 0 * 256 + d29.getD 23 0)))),
           ("led_off_byte1", .int (d29.getD 22 0)),
           ("led_off_byte2", .int (d29.getD 23 0)),
           ("do_not_disturb_switch", .int (d29.getD 24 0)),
           ("do_not_disturb_time_on", .int (toSigned16 (d29.getD 25 0 * 256 + d29.getD 26 0))),
           ("do_not_disturb_time_on_readable",
             .str (minutes_to_timestamp (toSigned16 (d29.getD 25 0 * 256 + d29.getD 26 0)))),
           ("dnd_on_byte1", .int (d29.getD 25 0)),
           ("dnd_on_byte2", .int (d29.getD 26 0)),
           ("do_not_disturb_time_off", .int (toSigned16 (d29.getD 27 0 * 256 + d29.getD 28 0))),
           ("do_not_disturb_time_off_readable",
             .str (minutes_to_timestamp (toSigned16 (d29.getD 27 0 * 256 + d29.getD 28 0)))),
           ("dnd_off_byte1", .int (d29.getD 27 0)),
           ("dnd_off_byte2", .int (d29.getD 28 0)),
           ("pump_runtime_readable",
             .str (get_timestamp_days (bytes_to_integer (pySlice d29 6 10)))),
           ("pump_runtime_today_readable",
             .str (get_timestamp_hours (bytes_to_integer (pySlice d29 12 16)))),
           ("filter_time_left", .int ftl),
           ("purified_water", .rat pw),
           ("purified_water_today", .rat pwt),
           ("energy_consumed", .str ec)] := by
        unfold device_status
        rw [if_neg (by omega), hcv, e2022, e2224, e2527, e2729,
          bytes_to_short_pair, bytes_to_short_pair, bytes_to_short_pair, bytes_to_short_pair]
      rw [hst]
      and_intros <;> rfl

/-- Witness for C8 at concrete 14-byte and 29-byte payloads (mode byte 1). -/
theorem c8_payload_layout_offsets_witness :
    (device_configuration [10, 11, 12, 13, 14, 15, 16, 17, 18, 19, 20, 21, 22, 23] "W5").bind
        (fun out => out.lookup "smart_time_on") =
      some (.int (([10, 11, 12, 13, 14, 15, 16, 17, 18, 19, 20, 21, 22, 23] : List Nat).getD 0 0)) :=
  (c8_payload_layout_offsets
      [10, 11, 12, 13, 14, 15, 16, 17, 18, 19, 20, 21, 22, 23]
      [0, 1, 2, 3, 4, 5, 6, 7, 8, 9, 10, 11, 12, 13, 14, 15, 16, 17, 18, 19, 20, 21,
       22, 23, 24, 25, 26, 27, 28]
      "W5" (by decide) (by decide) (Or.inl (by decide))).1.1


/-! ## Theorems: C4 -/

/-- `_update_connection_status` always records the requested status. -/
@[simp] theorem ucs_status (s : SupervisorState) (st : ConnectionStatus)
    (err : Option String) :
    (update_connection_status s st err).connection_status = st := by
  cases err <;> simp only [update_connection_status] <;> split <;> (try split) <;> rfl

/-- `_update_connection_status` never touches the reset clock. -/
@[simp] theorem ucs_last_reset (s : SupervisorState) (st : ConnectionStatus)
    (err : Option String) :
    (update_connection_status s st err).last_reset_time = s.last_reset_time := by
  cases err <;> simp only [update_connection_status] <;> split <;> (try split) <;> rfl

/-- `_update_connection_status` never touches the attempt budget. -/
@[simp] theorem ucs_max (s : SupervisorState) (st : ConnectionStatus)
    (err : Option String) :
    (update_connection_status s st err).max_connection_attempts =
      s.max_connection_attempts := by
  cases err <;> simp only [update_connection_status] <;> split <;> (try split) <;> rfl

/-- `_update_connection_status` keeps the attempt counter except on a logged
CONNECTED transition. -/
@[simp] theorem ucs_attempts_of_ne (s : SupervisorState) (st : ConnectionStatus)
    (err : Option String) (h : st ≠ .connected) :
    (update_connection_status s st err).connection_attempts =
      s.connection_attempts := by
  cases err <;> simp only [update_connection_status] <;> split <;>
    simp only [if_neg h]

/-- `_should_attempt_retry` is pure (no auto-reset) whenever attempts remain
or the 300 s interval has not elapsed. -/
theorem should_attempt_retry_id (t : SupervisorState) (now : Nat)
    (h : t.connection_attempts < t.max_connection_attempts ∨
      now < t.last_reset_time + 300) :
    should_attempt_retry t now =
      (t, decide (t.connection_attempts < t.max_connection_attempts)) := by
  simp only [should_attempt_retry]
  rcases h with h | h
  · rw [if_neg (show ¬ t.max_connection_attempts ≤ t.connection_attempts by omega), ite_self]
  · rw [if_neg (by omega)]

/-- A logged CONNECTED transition from a non-CONNECTED status resets the
attempt counter. -/
theorem ucs_connected_attempts (s : SupervisorState) (err : Option String)
    (h : s.connection_status ≠ .connected) :
    (update_connection_status s .connected err).connection_attempts = 0 := by
  cases err with
  | none =>
    simp only [update_connection_status]
    rw [if_pos (Or.inl h)]
    simp
  | some e =>
    simp only [update_connection_status]
    rw [if_pos (Or.inl h)]
    simp

/-- One failed `connect_device` call: the attempt counter increments, the
status becomes RECONNECTING while attempts remain and FAILED otherwise, the
reset clock and the budget are untouched and the call returns `False` —
provided the call is not eligible for the 300 s auto-reset. -/
theorem connect_device_fail_step (s : SupervisorState) (address : String) (now : Nat)
    (oc : ConnectOutcome) (hoc : oc ≠ .success)
    (hguard : s.connection_attempts + 1 < s.max_connection_attempts ∨
      now < s.last_reset_time + 300) :
    (connect_device s address now oc).1.connection_attempts = s.connection_attempts + 1 ∧
    (connect_device s address now oc).1.connection_status =
      (if s.connection_attempts + 1 < s.max_connection_attempts
       then ConnectionStatus.reconnecting else ConnectionStatus.failed) ∧
    (connect_device s address now oc).1.last_reset_time = s.last_reset_time ∧
    (connect_device s address now oc).1.max_connection_attempts =
      s.max_connection_attempts ∧
    (connect_device s address now oc).2 = false := by
  cases oc
  case success => exact absurd rfl hoc
  all_goals
    simp only [connect_device]
    rw [should_attempt_retry_id]
    · by_cases hc : s.connection_attempts + 1 < s.max_connection_attempts
      · simp [apply_ite SupervisorState.connection_attempts,
              apply_ite SupervisorState.last_reset_time,
              apply_ite SupervisorState.max_connection_attempts, hc]
      · simp [apply_ite SupervisorState.connection_attempts,
              apply_ite SupervisorState.last_reset_time,
              apply_ite SupervisorState.max_connection_attempts, hc]
    · simp only [apply_ite SupervisorState.connection_attempts,
              apply_ite SupervisorState.last_reset_time,
              apply_ite SupervisorState.max_connection_attempts]
      simp
      rcases hguard with h | h
      · left; omega
      · right; omega

/-- Characterisation of a non-empty run of consecutive failed connects whose
times all precede the auto-reset deadline: the counter accumulates, and the
status is RECONNECTING until the budget is exhausted, FAILED at exhaustion. -/
theorem fail_run_chars (address : String) :
    ∀ (calls : List (Nat × ConnectOutcome)) (s : SupervisorState),
      calls ≠ [] →
      s.connection_attempts + calls.length ≤ s.max_connection_attempts →
      (∀ c ∈ calls, c.2 ≠ ConnectOutcome.success) →
      (∀ c ∈ calls, c.1 < s.last_reset_time + 300) →
      (fail_run address s calls).connection_attempts =
        s.connection_attempts + calls.length ∧
      (fail_run address s calls).connection_status =
        (if s.connection_attempts + calls.length < s.max_connection_attempts
         then ConnectionStatus.reconnecting else ConnectionStatus.failed) ∧
      (fail_run address s calls).last_reset_time = s.last_reset_time ∧
      (fail_run address s calls).max_connection_attempts = s.max_connection_attempts
  | [], _, hne, _, _, _ => absurd rfl hne
  | c :: calls, s, _, hlen, hfail, htime => by
    have hstep := connect_device_fail_step s address c.1 c.2
      (hfail c (List.mem_cons_self _ _))
      (Or.inr (htime c (List.mem_cons_self _ _)))
    obtain ⟨ha, hst, hlr, hmax, -⟩ := hstep
    have hfr : fail_run address s (c :: calls) =
        fail_run address (connect_device s address c.1 c.2).1 calls := rfl
    cases calls with
    | nil =>
      rw [hfr]
      simp only [fail_run, List.foldl_nil]
      exact ⟨by simpa using ha, by simpa using hst, hlr, hmax⟩
    | cons c' calls' =>
      have ih := fail_run_chars address (c' :: calls') (connect_device s address c.1 c.2).1
        (by simp)
        (by rw [ha, hmax]; simp only [List.length_cons] at hlen ⊢; omega)
        (fun d hd => hfail d (List.mem_cons_of_mem _ hd))
        (fun d hd => by rw [hlr]; exact htime d (List.mem_cons_of_mem _ hd))
      obtain ⟨iha, ihst, ihlr, ihmax⟩ := ih
      rw [hfr]
      refine ⟨?_, ?_, ?_, ?_⟩
      · rw [iha, ha]; simp only [List.length_cons]; omega
      · rw [ihst, ha, hmax]
        simp only [List.length_cons]
        by_cases hx : s.connection_attempts + (calls'.length + 1 + 1) <
            s.max_connection_attempts
        · rw [if_pos (by omega), if_pos hx]
        · rw [if_neg (by omega), if_neg hx]
      · rw [ihlr, hlr]
      · rw [ihmax, hmax]

/-- **C4.** For the supervisor constructed Disconnected with `attempts = 0`
(`HABluetoothAdapter`): a failed `connect_device` call leaves the status
RECONNECTING with `attempts = 1`; a run of `max_connection_attempts` (1000)
consecutive failures within the auto-reset window ends with status FAILED;
and a successful `connect_device` from any state — in particular any
non-terminal one — sets CONNECTED and resets `attempts` to 0. -/
theorem c4_connection_supervisor (t0 now : Nat) (address : String)
    (oc : ConnectOutcome) (calls : List (Nat × ConnectOutcome)) (s : SupervisorState)
    (hoc : oc ≠ ConnectOutcome.success)
    (hlen : calls.length = (supervisor_init t0).max_connection_attempts)
    (hfail : ∀ c ∈ calls, c.2 ≠ ConnectOutcome.success)
    (htime : ∀ c ∈ calls, c.1 < t0 + 300)
    (hs : s.connection_status ≠ ConnectionStatus.failed) :
    ((connect_device (supervisor_init t0) address now oc).1.connection_status =
        ConnectionStatus.reconnecting ∧
     (connect_device (supervisor_init t0) address now oc).1.connection_attempts = 1) ∧
    (fail_run address (supervisor_init t0) calls).connection_status =
      ConnectionStatus.failed ∧
    ((connect_device s address now ConnectOutcome.success).1.connection_status =
        ConnectionStatus.connected ∧
     (connect_device s address now ConnectOutcome.success).1.connection_attempts = 0) := by
  refine ⟨?_, ?_, ?_⟩
  · have h := connect_device_fail_step (supervisor_init t0) address now oc hoc
      (Or.inl (by simp [supervisor_init]))
    obtain ⟨ha, hst, -, -, -⟩ := h
    constructor
    · rw [hst]; simp [supervisor_init]
    · rw [ha]; simp [supervisor_init]
  · have hlen' : calls.length = 1000 := by simpa [supervisor_init] using hlen
    have h := fail_run_chars address calls (supervisor_init t0)
      (by intro hnil; rw [hnil] at hlen'; simp at hlen')
      (by simp [supervisor_init, hlen'])
      hfail
      (by intro c hc; simpa [supervisor_init] using htime c hc)
    obtain ⟨-, hst, -, -⟩ := h
    rw [hst]
    simp [supervisor_init, hlen']
  · constructor
    · by_cases h0 : s.connection_attempts = 0 <;> simp [connect_device, h0]
    · by_cases h0 : s.connection_attempts = 0
      · simp only [connect_device, if_pos h0]
        rw [ucs_connected_attempts]
        simp
      · simp only [connect_device, if_neg h0]
        rw [ucs_connected_attempts]
        simp

/-- Witness for C4: 1000 timed-out connects at time 0 from a fresh supervisor
end in FAILED. -/
theorem c4_connection_supervisor_witness :
    (fail_run "00:11:22:33:44:55" (supervisor_init 0)
        (List.replicate 1000 (0, ConnectOutcome.timeout))).connection_status =
      ConnectionStatus.failed :=
  (c4_connection_supervisor 0 0 "00:11:22:33:44:55" ConnectOutcome.timeout
      (List.replicate 1000 (0, ConnectOutcome.timeout)) (supervisor_init 0)
      (by decide)
      (by rw [List.length_replicate]; rfl)
      (fun c hc => by rw [List.eq_of_mem_replicate hc]; decide)
      (fun c hc => by rw [List.eq_of_mem_replicate hc]; decide)
      (by simp [supervisor_init])).2.1
